import Mathlib

/-!
Verification of the signature-checking webhook gate (`src/index.ts`) of
`discord-interactions-js`.

The embedding models the two exported operations:

* `verifyKey` — wraps an external Ed25519 verifier (`noble-ed25519`'s
  `verify`, a third-party dependency, modelled as an abstract function of
  type `EdVerify` that may either return a boolean or raise) and folds any
  raised error into `false`.
* `verifyKeyMiddleware` — the Express-style request gate: header check,
  raw-body acquisition (four sourcing paths), signature verification,
  JSON-payload dispatch (PING auto-reply vs. pass-through to `next`).

Byte buffers are `List Nat`; JavaScript values parsed from JSON are
`JsonVal`; the observable outcome of one middleware invocation is
`MWOutcome` (the response written / `next` invocation / escaped exception,
plus whether the `console.warn` diagnostic fired).
-/

/-- UTF-8 encoding of one character, as byte values (models Node's
`Buffer.from(_, 'utf-8')` per character). -/
def charUtf8 (c : Char) : List Nat :=
  let n := c.toNat
  if n < 0x80 then [n]
  else if n < 0x800 then
    [0xC0 ||| (n >>> 6), 0x80 ||| (n &&& 0x3F)]
  else if n < 0x10000 then
    [0xE0 ||| (n >>> 12), 0x80 ||| ((n >>> 6) &&& 0x3F), 0x80 ||| (n &&& 0x3F)]
  else
    [0xF0 ||| (n >>> 18), 0x80 ||| ((n >>> 12) &&& 0x3F),
     0x80 ||| ((n >>> 6) &&& 0x3F), 0x80 ||| (n &&& 0x3F)]

/-- UTF-8 bytes of a string: models `Buffer.from(s, 'utf-8')`. -/
def utf8Bytes (s : String) : List Nat :=
  s.data.flatMap charUtf8

/-- The numeric interaction-type constants of the source's `InteractionType`
enum. -/
def InteractionType.PING : Int := 1

def InteractionType.COMMAND : Int := 2

/-- The numeric response-type constants of the source's
`InteractionResponseType` enum. -/
def InteractionResponseType.PONG : Int := 1

def InteractionResponseType.ACKNOWLEDGE : Int := 2

def InteractionResponseType.CHANNEL_MESSAGE : Int := 3

def InteractionResponseType.CHANNEL_MESSAGE_WITH_SOURCE : Int := 4

def InteractionResponseType.ACKNOWLEDGE_WITH_SOURCE : Int := 5

def InteractionResponseFlags.EPHEMERAL : Int := 1 <<< 6

/-- The external Ed25519 verifier (`noble-ed25519`'s `verify`): given the
signature header string, the message bytes and the public-key string it
either returns a boolean (`Except.ok`) or raises (`Except.error`). -/
def EdVerify : Type :=
  String → List Nat → String → Except String Bool

/-- `verifyKey` before the `catch` is applied: the `try` block awaits
`edVerify(signature, timestamp-bytes ++ rawBody, clientPublicKey)` and the
`catch` arm turns any raised error into the result `false`.  The codomain
keeps the error branch so that its unreachability is a statable fact. -/
def verifyKeyE (edv : EdVerify) (rawBody : List Nat)
    (signature timestamp clientPublicKey : String) : Except String Bool :=
  match edv signature (utf8Bytes timestamp ++ rawBody) clientPublicKey with
  | .ok b => .ok b
  | .error _ => .ok false

/-- The boolean the caller of `verifyKey` observes. -/
def verifyKey (edv : EdVerify) (rawBody : List Nat)
    (signature timestamp clientPublicKey : String) : Bool :=
  match verifyKeyE edv rawBody signature timestamp clientPublicKey with
  | .ok b => b
  | .error _ => false

/-- JavaScript values producible by `JSON.parse` (numbers modelled as
integers; the gate only compares the `type` field against small integer
constants). -/
inductive JsonVal : Type where
  | null : JsonVal
  | bool (b : Bool) : JsonVal
  | num (n : Int) : JsonVal
  | str (s : String) : JsonVal
  | arr (elems : List JsonVal) : JsonVal
  | obj (fields : List (String × JsonVal)) : JsonVal

/-- JavaScript truthiness of a `JsonVal` (`null`, `false`, `0` and `""` are
falsy; every object and array is truthy). -/
def jsTruthy : JsonVal → Bool
  | .null => false
  | .bool b => b
  | .num n => n != 0
  | .str s => s != ""
  | .arr _ => true
  | .obj _ => true

/-- JavaScript property access `v[k]` as used by `body.type`: defined on
objects, `undefined` (here `none`) on everything else. -/
def getField : JsonVal → String → Option JsonVal
  | .obj fields, k => fields.lookup k
  | _, _ => none

mutual

/-- `JSON.stringify` on our value model. -/
def stringify : JsonVal → String
  | .null => "null"
  | .bool true => "true"
  | .bool false => "false"
  | .num n => toString n
  | .str s => "\x22" ++ s ++ "\x22"
  | .arr elems => "[" ++ stringifyElems elems ++ "]"
  | .obj fields => "\x7b" ++ stringifyFields fields ++ "\x7d"

def stringifyElems : List JsonVal → String
  | [] => ""
  | [v] => stringify v
  | v :: rest => stringify v ++ "," ++ stringifyElems rest

def stringifyFields : List (String × JsonVal) → String
  | [] => ""
  | [(k, v)] => "\x22" ++ k ++ "\x22:" ++ stringify v
  | (k, v) :: rest =>
    "\x22" ++ k ++ "\x22:" ++ stringify v ++ "," ++ stringifyFields rest

end

/-- The strict comparison `body.type === InteractionType.PING`: true exactly
when the accessed property is the number `1`. -/
def isPingType : Option JsonVal → Bool
  | some (.num n) => n == InteractionType.PING
  | _ => false

/-- The pre-materialized `req.body` a hosting framework may have left on the
request: a byte buffer, a string, or any other JavaScript value (the
`JSON.stringify` fallback path). `Option` is the `undefined` case. -/
inductive ReqBody : Type where
  | buffer (bytes : List Nat) : ReqBody
  | str (s : String) : ReqBody
  | other (v : JsonVal) : ReqBody

/-- JavaScript truthiness of `req.body` (`undefined` is falsy; a `Buffer`
object is always truthy; a string is truthy iff nonempty; other values per
`jsTruthy`). -/
def reqBodyTruthy : Option ReqBody → Bool
  | none => false
  | some (.buffer _) => true
  | some (.str s) => s != ""
  | some (.other v) => jsTruthy v

/-- One inbound request, as the middleware sees it: the two signature
headers (`none` = absent), a possibly pre-materialized body, and the chunks
the raw stream would deliver, in arrival order. -/
structure Request : Type where
  xSignatureTimestamp : Option String
  xSignatureEd25519 : Option String
  body : Option ReqBody
  stream : List (List Nat)

/-- JavaScript truthiness of a header value (`undefined` or `""` is falsy). -/
def headerTruthy : Option String → Bool
  | none => false
  | some s => s != ""

/-- A response written via `res`: status code, optional `Content-Type`
header, body text. -/
structure Response : Type where
  status : Nat
  contentType : Option String
  body : String
deriving DecidableEq

/-- The terminal event of one middleware invocation: a response was written,
`next` was called (with the given payload stored in `req.body`), or an
exception escaped (nothing written, `next` not called). -/
inductive MWResult : Type where
  | respond (r : Response) : MWResult
  | next (payload : JsonVal) : MWResult
  | raised (e : String) : MWResult

/-- Terminal event plus whether the `console.warn` diagnostic fired. -/
structure MWOutcome : Type where
  result : MWResult
  warned : Bool

/-- The body-acquisition branching of `verifyKeyMiddleware`: if `req.body`
is truthy, dispatch on `Buffer.isBuffer` / `typeof === 'string'` / the
`JSON.stringify` fallback (which warns); otherwise accumulate the raw
stream's chunks in arrival order and concatenate.  Returns the raw body
bytes and whether the warning fired. -/
def acquire (body : Option ReqBody) (stream : List (List Nat)) :
    List Nat × Bool :=
  if reqBodyTruthy body then
    match body with
    | some (.buffer bytes) => (bytes, false)
    | some (.str s) => (utf8Bytes s, false)
    | some (.other v) => (utf8Bytes (stringify v), true)
    | none => (stream.flatten, false)
  else
    (stream.flatten, false)

/-- The parser parameter models `JSON.parse(rawBody.toString('utf-8'))`:
from the raw bytes it either returns a value or raises a syntax error. -/
def JsonParse : Type :=
  List Nat → Except String JsonVal

/-- The inner `onBodyComplete` continuation of `verifyKeyMiddleware`:
verify, 401 on failure, parse (`|| {}` coalescing a falsy parse result into
the empty object; a parse error escapes), then PONG auto-reply on
`type === PING` or `next` with the payload stored. -/
def onBodyComplete (edv : EdVerify) (parse : JsonParse)
    (signature timestamp clientPublicKey : String) (rawBody : List Nat) :
    MWResult :=
  if !verifyKey edv rawBody signature timestamp clientPublicKey then
    .respond ⟨401, none, "Invalid signature"⟩
  else
    match parse rawBody with
    | .error e => .raised e
    | .ok parsed =>
      let body := if jsTruthy parsed then parsed else .obj []
      if isPingType (getField body "type") then
        .respond ⟨200, some "application/json",
          stringify (.obj [("type", .num InteractionResponseType.PONG)])⟩
      else
        .next body

/-- The middleware returned by `verifyKeyMiddleware(clientPublicKey)`: read
the two headers, 401 `"Invalid headers"` if either is falsy, otherwise
acquire the raw body and run `onBodyComplete`. -/
def verifyKeyMiddleware (edv : EdVerify) (parse : JsonParse)
    (clientPublicKey : String) (req : Request) : MWOutcome :=
  let timestamp := req.xSignatureTimestamp
  let signature := req.xSignatureEd25519
  if !headerTruthy timestamp || !headerTruthy signature then
    ⟨.respond ⟨401, none, "Invalid headers"⟩, false⟩
  else
    let acquired := acquire req.body req.stream
    ⟨onBodyComplete edv parse (signature.getD "") (timestamp.getD "")
        clientPublicKey acquired.1,
      acquired.2⟩

/-! ## Concrete instances used by witnesses -/

/-- A verifier that accepts exactly the signature string "good". -/
def edvGood : EdVerify :=
  fun s _ _ => .ok (s == "good")

/-- A verifier that always raises. -/
def edvRaise : EdVerify :=
  fun _ _ _ => .error "boom"

/-- A verifier that accepts everything. -/
def edvAccept : EdVerify :=
  fun _ _ _ => .ok true

/-- A verifier that rejects everything. -/
def edvReject : EdVerify :=
  fun _ _ _ => .ok false

/-- A parser that always raises a syntax error. -/
def parseFail : JsonParse :=
  fun _ => .error "Unexpected token"

/-- A parser returning a fixed value, ignoring the bytes. -/
def parseConst (v : JsonVal) : JsonParse :=
  fun _ => .ok v

/-! ## C1 / C2 : the verifier -/

/-- Claim C1: for every raw body, signature header value, timestamp header
value and public key, `verifyKey` returns `true` iff the signature is a
valid Ed25519 signature under that key over the message
`utf8(timestamp) ++ rawBody` (no delimiter) — stated relative to any
external verifier `edv` whose successful `true` results characterise
Ed25519 validity `Valid`. -/
theorem verifyKey_true_iff_valid_sig (edv : EdVerify)
    (Valid : String → List Nat → String → Prop)
    (hspec : ∀ s m pk, edv s m pk = .ok true ↔ Valid s m pk)
    (rawBody : List Nat) (signature timestamp clientPublicKey : String) :
    verifyKey edv rawBody signature timestamp clientPublicKey = true ↔
      Valid signature (utf8Bytes timestamp ++ rawBody) clientPublicKey := by
  unfold verifyKey verifyKeyE
  cases hEq : edv signature (utf8Bytes timestamp ++ rawBody) clientPublicKey with
  | ok b =>
    simp only []
    constructor
    · intro hb
      exact (hspec _ _ _).mp (hb ▸ hEq)
    · intro hv
      have := (hspec _ _ _).mpr hv
      rw [hEq] at this
      exact Except.ok.inj this
  | error e =>
    simp only []
    constructor
    · intro hb
      exact absurd hb (by simp)
    · intro hv
      have := (hspec _ _ _).mpr hv
      rw [hEq] at this
      exact absurd this (by simp)

theorem verifyKey_true_iff_valid_sig_witness :
    verifyKey edvGood [1, 2, 3] "good" "ts" "pk" = true ↔
      ("good" = "good") :=
  verifyKey_true_iff_valid_sig edvGood (fun s _ _ => s = "good")
    (by
      intro s m pk
      unfold edvGood
      constructor
      · intro h
        have hb : (s == "good") = true := by
          simpa using h
        exact eq_of_beq hb
      · intro h
        subst h
        simp)
    [1, 2, 3] "good" "ts" "pk"

/-- Claim C2: `verifyKey` never raises to its caller: the `Except` form of
the computation always lands in the `ok` branch (carrying exactly the
boolean the caller sees), and whenever the external verifier raises, the
result is folded into `false`. -/
theorem verifyKey_never_raises (edv : EdVerify) (rawBody : List Nat)
    (signature timestamp clientPublicKey : String) :
    verifyKeyE edv rawBody signature timestamp clientPublicKey =
        .ok (verifyKey edv rawBody signature timestamp clientPublicKey) ∧
      (∀ e, edv signature (utf8Bytes timestamp ++ rawBody) clientPublicKey =
          .error e →
        verifyKey edv rawBody signature timestamp clientPublicKey = false) := by
  constructor
  · unfold verifyKey verifyKeyE
    cases edv signature (utf8Bytes timestamp ++ rawBody) clientPublicKey <;> rfl
  · intro e hErr
    unfold verifyKey verifyKeyE
    rw [hErr]

theorem verifyKey_never_raises_witness :
    verifyKeyE edvRaise [7] "sig" "ts" "pk" =
        .ok (verifyKey edvRaise [7] "sig" "ts" "pk") ∧
      verifyKey edvRaise [7] "sig" "ts" "pk" = false :=
  ⟨(verifyKey_never_raises edvRaise [7] "sig" "ts" "pk").1,
    (verifyKey_never_raises edvRaise [7] "sig" "ts" "pk").2 "boom" rfl⟩

/-! ## C3 / C4 / C5 : middleware rejection and PING paths -/

/-- Claim C3: if the timestamp header or the signature header is absent or
empty (either alone, or both), the middleware answers 401 `"Invalid
headers"` — for every verifier, every parser, every pre-materialized body
and every stream content, so neither the body nor the verifier nor
downstream logic is ever consulted. -/
theorem middleware_missing_headers_401 (edv : EdVerify) (parse : JsonParse)
    (clientPublicKey : String) (ts sig : Option String)
    (body : Option ReqBody) (stream : List (List Nat))
    (h : headerTruthy ts = false ∨ headerTruthy sig = false) :
    verifyKeyMiddleware edv parse clientPublicKey ⟨ts, sig, body, stream⟩ =
      ⟨.respond ⟨401, none, "Invalid headers"⟩, false⟩ := by
  unfold verifyKeyMiddleware
  rcases h with h | h <;> simp [h]

theorem middleware_missing_headers_401_witness :
    (headerTruthy (some "") = false ∨ headerTruthy (some "sig") = false) ∧
      verifyKeyMiddleware edvAccept parseFail "pk"
          ⟨some "", some "sig", some (.buffer [9]), [[1, 2]]⟩ =
        ⟨.respond ⟨401, none, "Invalid headers"⟩, false⟩ :=
  ⟨Or.inl rfl,
    middleware_missing_headers_401 edvAccept parseFail "pk" (some "")
      (some "sig") (some (.buffer [9])) [[1, 2]] (Or.inl rfl)⟩

/-- Claim C4: with both headers present (truthy) but a signature that fails
verification over the acquired raw body, the middleware answers 401
`"Invalid signature"` — for every parser, so the body is never parsed as a
payload, and `next` is never invoked. -/
theorem middleware_bad_signature_401 (edv : EdVerify) (parse : JsonParse)
    (clientPublicKey ts sig : String) (body : Option ReqBody)
    (stream : List (List Nat)) (hts : ts ≠ "") (hsig : sig ≠ "")
    (hver : verifyKey edv (acquire body stream).1 sig ts clientPublicKey =
      false) :
    (verifyKeyMiddleware edv parse clientPublicKey
        ⟨some ts, some sig, body, stream⟩).result =
      .respond ⟨401, none, "Invalid signature"⟩ := by
  unfold verifyKeyMiddleware onBodyComplete
  simp [headerTruthy, hts, hsig, hver]

theorem middleware_bad_signature_401_witness :
    ("t" ≠ "") ∧ ("s" ≠ "") ∧
      verifyKey edvReject (acquire none [[104, 105]]).1 "s" "t" "pk" = false ∧
      (verifyKeyMiddleware edvReject parseFail "pk"
          ⟨some "t", some "s", none, [[104, 105]]⟩).result =
        .respond ⟨401, none, "Invalid signature"⟩ :=
  ⟨by decide, by decide, rfl,
    middleware_bad_signature_401 edvReject parseFail "pk" "t" "s" none
      [[104, 105]] (by decide) (by decide) rfl⟩

/-- If `body.type === PING` holds of a value, that value is an object,
hence truthy. -/
theorem jsTruthy_of_ping (v : JsonVal)
    (h : isPingType (getField v "type") = true) : jsTruthy v = true := by
  cases v <;> first
    | rfl
    | simp [getField, isPingType] at h

/-- Claim C5: with both headers truthy, a signature that verifies, and a
body parsing to a payload whose `type` is the number `1` (PING), the
middleware answers status 200 with `Content-Type: application/json` and
body `{"type":1}` (PONG), and `next` is never invoked. -/
theorem middleware_ping_pong (edv : EdVerify) (parse : JsonParse)
    (clientPublicKey ts sig : String) (body : Option ReqBody)
    (stream : List (List Nat)) (v : JsonVal)
    (hts : ts ≠ "") (hsig : sig ≠ "")
    (hver : verifyKey edv (acquire body stream).1 sig ts clientPublicKey =
      true)
    (hparse : parse (acquire body stream).1 = .ok v)
    (hping : isPingType (getField v "type") = true) :
    (verifyKeyMiddleware edv parse clientPublicKey
        ⟨some ts, some sig, body, stream⟩).result =
      .respond ⟨200, some "application/json", "\x7b\x22type\x22:1\x7d"⟩ := by
  unfold verifyKeyMiddleware onBodyComplete
  simp [headerTruthy, hts, hsig, hver, hparse, jsTruthy_of_ping v hping,
    hping]
  simp [stringify, stringifyFields, InteractionResponseType.PONG]
  rfl

theorem middleware_ping_pong_witness :
    ("t" ≠ "") ∧ ("s" ≠ "") ∧
      verifyKey edvAccept (acquire none [[1]]).1 "s" "t" "pk" = true ∧
      parseConst (.obj [("type", .num 1)]) (acquire none [[1]]).1 =
        .ok (.obj [("type", .num 1)]) ∧
      isPingType (getField (.obj [("type", .num 1)]) "type") = true ∧
      (verifyKeyMiddleware edvAccept (parseConst (.obj [("type", .num 1)]))
          "pk" ⟨some "t", some "s", none, [[1]]⟩).result =
        .respond ⟨200, some "application/json", "\x7b\x22type\x22:1\x7d"⟩ :=
  ⟨by decide, by decide, rfl, rfl, by decide,
    middleware_ping_pong edvAccept (parseConst (.obj [("type", .num 1)]))
      "pk" "t" "s" none [[1]] (.obj [("type", .num 1)]) (by decide)
      (by decide) rfl rfl (by decide)⟩

/-! ## C6 / C10 : payload dispatch after successful verification -/

/-- Counterexample to claim C6 as stated: a body parsing to the payload
`false` has `type` not equal to `1` (property access on a boolean is
`undefined`), yet the middleware does not store the parsed payload
unchanged — the `|| {}` coalescing stores the empty object instead. -/
theorem middleware_falsy_payload_not_unchanged :
    (verifyKeyMiddleware edvAccept (parseConst (.bool false)) "pk"
        ⟨some "t", some "s", none, [[102]]⟩).result =
      .next (.obj []) ∧
    isPingType (getField (.bool false) "type") = false ∧
    JsonVal.obj [] ≠ JsonVal.bool false := by
  refine ⟨rfl, rfl, ?_⟩
  intro h
  cases h

/-- Claim C6 (amended): with valid headers, a verified signature, and a body
parsing to a *truthy* payload whose `type` is not the number `1`, the
middleware writes no direct response, stores the parsed payload unchanged
and invokes `next` exactly once.  (A falsy parsed payload is instead
replaced by the empty object — see the falsy-payload theorem.) -/
theorem middleware_nonping_passes_payload (edv : EdVerify)
    (parse : JsonParse) (clientPublicKey ts sig : String)
    (body : Option ReqBody) (stream : List (List Nat)) (v : JsonVal)
    (hts : ts ≠ "") (hsig : sig ≠ "")
    (hver : verifyKey edv (acquire body stream).1 sig ts clientPublicKey =
      true)
    (hparse : parse (acquire body stream).1 = .ok v)
    (htruthy : jsTruthy v = true)
    (hping : isPingType (getField v "type") = false) :
    (verifyKeyMiddleware edv parse clientPublicKey
        ⟨some ts, some sig, body, stream⟩).result = .next v := by
  unfold verifyKeyMiddleware onBodyComplete
  simp [headerTruthy, hts, hsig, hver, hparse, htruthy, hping]

theorem middleware_nonping_passes_payload_witness :
    ("t" ≠ "") ∧ ("s" ≠ "") ∧
      verifyKey edvAccept (acquire none [[2]]).1 "s" "t" "pk" = true ∧
      jsTruthy (.obj [("type", .num 2), ("a", .str "b")]) = true ∧
      isPingType (getField (.obj [("type", .num 2), ("a", .str "b")]) "type") =
        false ∧
      (verifyKeyMiddleware edvAccept
          (parseConst (.obj [("type", .num 2), ("a", .str "b")])) "pk"
          ⟨some "t", some "s", none, [[2]]⟩).result =
        .next (.obj [("type", .num 2), ("a", .str "b")]) :=
  ⟨by decide, by decide, rfl, rfl, by decide,
    middleware_nonping_passes_payload edvAccept
      (parseConst (.obj [("type", .num 2), ("a", .str "b")])) "pk" "t" "s"
      none [[2]] (.obj [("type", .num 2), ("a", .str "b")]) (by decide)
      (by decide) rfl rfl rfl (by decide)⟩

/-- Claim C10: with valid headers and a verified signature, a body parsing
to a falsy JSON value (`null`, `false`, `0`, `""`) is replaced by the empty
object, which has no `type` field, so the middleware never answers PONG and
never reports an error for such bodies: it stores the empty object and
invokes `next`. -/
theorem middleware_falsy_payload_empty_object (edv : EdVerify)
    (parse : JsonParse) (clientPublicKey ts sig : String)
    (body : Option ReqBody) (stream : List (List Nat)) (v : JsonVal)
    (hts : ts ≠ "") (hsig : sig ≠ "")
    (hver : verifyKey edv (acquire body stream).1 sig ts clientPublicKey =
      true)
    (hparse : parse (acquire body stream).1 = .ok v)
    (hfalsy : jsTruthy v = false) :
    (verifyKeyMiddleware edv parse clientPublicKey
        ⟨some ts, some sig, body, stream⟩).result = .next (.obj []) := by
  unfold verifyKeyMiddleware onBodyComplete
  simp [headerTruthy, hts, hsig, hver, hparse, hfalsy, getField, isPingType,
    List.lookup]

theorem middleware_falsy_payload_empty_object_witness :
    ("t" ≠ "") ∧ ("s" ≠ "") ∧
      verifyKey edvAccept (acquire none [[48]]).1 "s" "t" "pk" = true ∧
      jsTruthy (.num 0) = false ∧
      (verifyKeyMiddleware edvAccept (parseConst (.num 0)) "pk"
          ⟨some "t", some "s", none, [[48]]⟩).result = .next (.obj []) :=
  ⟨by decide, by decide, rfl, rfl,
    middleware_falsy_payload_empty_object edvAccept (parseConst (.num 0))
      "pk" "t" "s" none [[48]] (.num 0) (by decide) (by decide) rfl rfl rfl⟩

/-! ## C7 / C8 : body acquisition -/

/-- Counterexample to claim C7 as stated: the empty string is a
pre-materialized body, but because `req.body` truthiness treats `""` as
absent, the middleware reads the raw stream instead of using the string's
UTF-8 encoding. -/
theorem acquire_empty_string_body_not_utf8 :
    acquire (some (.str "")) [[104, 105]] = ([104, 105], false) ∧
      ([104, 105] : List Nat) ≠ utf8Bytes "" := by
  exact ⟨rfl, by decide⟩

/-- Claim C7 (amended): body acquisition follows the fixed priority only
for *truthy* pre-materialized bodies — a byte buffer is used verbatim, a
(nonempty) string is UTF-8 encoded, and any other value is re-serialized to
JSON bytes with the diagnostic warning fired on exactly that path; a falsy
`req.body` (absent, `""`, `null`, `false`, `0`) is treated as no body at
all and the raw stream is read instead, without warning. -/
theorem acquire_priority_amended (body : Option ReqBody)
    (stream : List (List Nat)) :
    (reqBodyTruthy body = true →
      (∀ bs, body = some (.buffer bs) → acquire body stream = (bs, false)) ∧
      (∀ s, body = some (.str s) →
        acquire body stream = (utf8Bytes s, false)) ∧
      (∀ v, body = some (.other v) →
        acquire body stream = (utf8Bytes (stringify v), true))) ∧
    (reqBodyTruthy body = false →
      acquire body stream = (stream.flatten, false)) := by
  constructor
  · intro htruthy
    refine ⟨?_, ?_, ?_⟩ <;> intro x hx <;> subst hx <;>
      simp [acquire, htruthy]
  · intro hfalsy
    simp [acquire, hfalsy]

theorem acquire_priority_amended_witness :
    reqBodyTruthy (some (.buffer [5])) = true ∧
      acquire (some (.buffer [5])) [[9]] = ([5], false) :=
  ⟨rfl,
    ((acquire_priority_amended (some (.buffer [5])) [[9]]).1 rfl).1 [5] rfl⟩

/-- Claim C8: when no body has been materialized the raw stream's chunks
are concatenated in arrival order, so the bytes fed to the signed message
are exactly the original body, and the whole middleware outcome is
invariant under re-chunking of the same bytes. -/
theorem stream_concat_chunk_invariant (edv : EdVerify) (parse : JsonParse)
    (clientPublicKey : String) (ts sig : Option String)
    (c1 c2 : List (List Nat)) (h : c1.flatten = c2.flatten) :
    acquire none c1 = (c1.flatten, false) ∧
      verifyKeyMiddleware edv parse clientPublicKey ⟨ts, sig, none, c1⟩ =
        verifyKeyMiddleware edv parse clientPublicKey ⟨ts, sig, none, c2⟩ := by
  refine ⟨rfl, ?_⟩
  unfold verifyKeyMiddleware
  simp [acquire, reqBodyTruthy, h]

theorem stream_concat_chunk_invariant_witness :
    ([[1], [2]] : List (List Nat)).flatten =
        ([[1, 2]] : List (List Nat)).flatten ∧
      acquire none [[1], [2]] = ([1, 2], false) ∧
      verifyKeyMiddleware edvAccept (parseConst (.num 2)) "pk"
          ⟨some "t", some "s", none, [[1], [2]]⟩ =
        verifyKeyMiddleware edvAccept (parseConst (.num 2)) "pk"
          ⟨some "t", some "s", none, [[1, 2]]⟩ :=
  ⟨rfl,
    (stream_concat_chunk_invariant edvAccept (parseConst (.num 2)) "pk"
        (some "t") (some "s") [[1], [2]] [[1, 2]] rfl).1,
    (stream_concat_chunk_invariant edvAccept (parseConst (.num 2)) "pk"
        (some "t") (some "s") [[1], [2]] [[1, 2]] rfl).2⟩

/-! ## C9 : payload parse failure -/

/-- Claim C9 evaluated on the code: at a request whose signature verifies
but whose raw body is not valid JSON, the `JSON.parse` exception escapes
the un-guarded async callback — the outcome is a raised exception, no
response of any kind is written to the client (in particular no distinct
client-error response) and `next` is not invoked. -/
theorem parse_error_raises_no_response :
    verifyKeyMiddleware edvAccept parseFail "pk"
        ⟨some "t", some "s", none, [[123]]⟩ =
      ⟨.raised "Unexpected token", false⟩ := rfl
